import Mathlib

/-!
# Compliance-evidence span engine: embedding and verification

This file embeds the compliance-as-code repository: the example HTTP
handlers (FastAPI `app/main.py` and Django `users/views.py`, which are
line-for-line parallel in everything the claims touch) and the
compliance-evidence span engine they call into.  The engine itself
(`compliance.gdpr` / `compliance.soc2`) is not part of the visible
repository — it contains only call-site examples — so the engine is
modelled from the specification (registry lookup, span lifecycle state
machine, correlation contexts, exporter enqueue).  The handlers are
translated directly from the Python source.
-/

/-- Modelled from the spec: attribute values are scalar evidence
payloads (strings, numbers, booleans). -/
inductive AttrValue where
  | str (s : String)
  | nat (n : Nat)
  | bool (b : Bool)
deriving DecidableEq

/-- Modelled from the spec: `ControlDescriptor` —
`{framework, id, title}`, immutable, identified by `(framework, id)`. -/
structure ControlDescriptor where
  framework : String
  id : String
  title : String
deriving DecidableEq

/-- Modelled from the spec: span status — OPEN (initial),
ENDED_OK / ENDED_ERROR (terminal). -/
inductive SpanStatus where
  | OPEN
  | ENDED_OK
  | ENDED_ERROR
deriving DecidableEq

/-- Modelled from the spec: error detail `{message, kind}` captured by
`endWithError`. -/
structure ErrInfo where
  message : String
  kind : String
deriving DecidableEq

/-- Modelled from the spec: the error taxonomy surfaced by the engine
(§7). -/
inductive EngineError where
  | UnknownControl
  | DuplicateControl
  | SpanClosed
  | SpanAlreadyEnded
deriving DecidableEq

/-- Modelled from the spec: a `Span` — control reference, ordered
input/output attributes, status, optional error, timestamps. -/
structure Span where
  spanId : Nat
  control : ControlDescriptor
  correlationKey : Nat
  inputs : List (String × AttrValue)
  outputs : List (String × AttrValue)
  status : SpanStatus
  error : Option ErrInfo
  startedAt : Nat
  endedAt : Option Nat
deriving DecidableEq

/-- Modelled from the spec: `EvidenceRecord`, the wire projection of an
ended Span plus its control and correlation key, created at enqueue
time and immutable once produced. -/
structure EvidenceRecord where
  spanId : Nat
  framework : String
  controlId : String
  correlationKey : Nat
  status : SpanStatus
  startedAt : Nat
  endedAt : Nat
  inputs : List (String × AttrValue)
  outputs : List (String × AttrValue)
  error : Option ErrInfo
deriving DecidableEq

/-- Modelled from the spec: engine-wide state — the control registry
(read-only after load), correlation contexts (key → member span ids),
the exporter queue, a counter for minting span ids and correlation
keys, and a logical clock for timestamps. -/
structure EngineState where
  registry : List ControlDescriptor
  contexts : List (Nat × List Nat)
  queue : List EvidenceRecord
  nextId : Nat
  clock : Nat
deriving DecidableEq

/-- Modelled from the spec: registry
`lookup(framework, id) → ControlDescriptor`, failing with
`UnknownControl` when the pair is not registered. -/
def lookupControl (reg : List ControlDescriptor) (fw cid : String) :
    Except EngineError ControlDescriptor :=
  match reg with
  | [] => Except.error EngineError.UnknownControl
  | c :: rest =>
    if c.framework = fw ∧ c.id = cid then Except.ok c
    else lookupControl rest fw cid

/-- Modelled from the spec: joining a CorrelationContext, creating it
lazily if this is the first span to reference the key. -/
def joinContext (ctxs : List (Nat × List Nat)) (k sid : Nat) :
    List (Nat × List Nat) :=
  match ctxs with
  | [] => [(k, [sid])]
  | c :: rest =>
    if c.1 = k then (k, c.2 ++ [sid]) :: rest
    else c :: joinContext rest k sid

/-- Member span ids of the CorrelationContext for a key. -/
def membersOf (ctxs : List (Nat × List Nat)) (k : Nat) : List Nat :=
  match ctxs with
  | [] => []
  | c :: rest => if c.1 = k then c.2 else membersOf rest k

/-- Modelled from the spec: `CorrelationContext.get(correlationKey)`. -/
def members (st : EngineState) (k : Nat) : List Nat :=
  membersOf st.contexts k

/-- Modelled from the spec: `beginSpan(framework, controlId[,
correlationKey])` — resolves the control via the registry (propagating
`UnknownControl`), mints a fresh correlation key when none is supplied,
registers the new span in its CorrelationContext, and returns an OPEN
span with empty inputs/outputs. -/
def beginSpan (st : EngineState) (fw cid : String) (ck : Option Nat) :
    Except EngineError (Span × EngineState) :=
  match lookupControl st.registry fw cid with
  | Except.error e => Except.error e
  | Except.ok c =>
    let sid := st.nextId
    let key := match ck with | some k => k | none => st.nextId + 1
    let s : Span :=
      { spanId := sid, control := c, correlationKey := key,
        inputs := [], outputs := [], status := SpanStatus.OPEN,
        error := none, startedAt := st.clock, endedAt := none }
    Except.ok (s,
      { st with nextId := st.nextId + 2,
                contexts := joinContext st.contexts key sid,
                clock := st.clock + 1 })

/-- Modelled from the spec: `setInput` — allowed only in OPEN, fails
with `SpanClosed` otherwise. -/
def Span.setInput (s : Span) (k : String) (v : AttrValue) :
    Except EngineError Span :=
  if s.status = SpanStatus.OPEN then
    Except.ok { s with inputs := s.inputs ++ [(k, v)] }
  else Except.error EngineError.SpanClosed

/-- Modelled from the spec: `setOutput` — allowed only in OPEN, fails
with `SpanClosed` otherwise. -/
def Span.setOutput (s : Span) (k : String) (v : AttrValue) :
    Except EngineError Span :=
  if s.status = SpanStatus.OPEN then
    Except.ok { s with outputs := s.outputs ++ [(k, v)] }
  else Except.error EngineError.SpanClosed

/-- Modelled from the spec: the EvidenceRecord snapshot of an ended
span, taken at enqueue time. -/
def snapshot (s : Span) : EvidenceRecord :=
  { spanId := s.spanId, framework := s.control.framework,
    controlId := s.control.id, correlationKey := s.correlationKey,
    status := s.status, startedAt := s.startedAt,
    endedAt := match s.endedAt with | some t => t | none => 0,
    inputs := s.inputs, outputs := s.outputs, error := s.error }

/-- Modelled from the spec: `end()` — OPEN → ENDED_OK, records
`endedAt`, hands the span to the Exporter's enqueue path before
returning; a second call fails with `SpanAlreadyEnded`. -/
def endSpan (st : EngineState) (s : Span) :
    Except EngineError (Span × EngineState) :=
  if s.status = SpanStatus.OPEN then
    let e := { s with status := SpanStatus.ENDED_OK, endedAt := some st.clock }
    Except.ok (e, { st with queue := st.queue ++ [snapshot e],
                            clock := st.clock + 1 })
  else Except.error EngineError.SpanAlreadyEnded

/-- Modelled from the spec: `endWithError(err)` — OPEN → ENDED_ERROR,
capturing `{message, kind}` verbatim, enqueueing before returning; a
second call fails with `SpanAlreadyEnded`. -/
def endWithError (st : EngineState) (s : Span) (err : ErrInfo) :
    Except EngineError (Span × EngineState) :=
  if s.status = SpanStatus.OPEN then
    let e := { s with status := SpanStatus.ENDED_ERROR, error := some err,
                      endedAt := some st.clock }
    Except.ok (e, { st with queue := st.queue ++ [snapshot e],
                            clock := st.clock + 1 })
  else Except.error EngineError.SpanAlreadyEnded

/-! ## The controls registered by the example applications -/

def gdprArt15 : ControlDescriptor :=
  { framework := "GDPR", id := "Art_15", title := "Right of Access" }

def gdprArt17 : ControlDescriptor :=
  { framework := "GDPR", id := "Art_17", title := "Right to Erasure" }

def gdprArt51f : ControlDescriptor :=
  { framework := "GDPR", id := "Art_51f", title := "Security of Processing" }

def soc2CC61 : ControlDescriptor :=
  { framework := "SOC2", id := "CC6_1", title := "Logical Access - Authorization" }

def demoRegistry : List ControlDescriptor :=
  [gdprArt15, gdprArt17, gdprArt51f, soc2CC61]

def demoState : EngineState :=
  { registry := demoRegistry, contexts := [], queue := [],
    nextId := 0, clock := 0 }

/-! ## The example applications' handlers, translated from the source

The FastAPI handlers (`app/main.py`) and the Django handlers
(`users/views.py`) are identical in every step the claims concern:
same spans, same inputs/outputs in the same order, same branch
structure.  Each model below therefore covers both.  The in-memory
`users_db` dict is embedded as an association list with the dict's
lookup/membership/delete semantics. -/

/-- A user record as stored in `users_db` (id, email, name). -/
structure UserRec where
  uid : String
  email : String
  name : String
deriving DecidableEq

/-- `users_db[k]` / `k in users_db` support: first-match lookup. -/
def lookupDb (db : List (String × UserRec)) (k : String) : Option UserRec :=
  match db with
  | [] => none
  | p :: rest => if p.1 = k then some p.2 else lookupDb rest k

/-- `k in users_db`. -/
def containsKey (db : List (String × UserRec)) (k : String) : Bool :=
  match lookupDb db k with
  | some _ => true
  | none => false

/-- `del users_db[k]`: removes the entry for `k`. -/
def removeKey (db : List (String × UserRec)) (k : String) :
    List (String × UserRec) :=
  match db with
  | [] => []
  | p :: rest =>
    if p.1 = k then removeKey rest k else p :: removeKey rest k

/-- HTTP-level results the handlers can produce. -/
inductive HttpResponse where
  | okUser (u : UserRec)
  | created (u : UserRec)
  | noContent
  | notFound
deriving DecidableEq

/-- `get_user` (FastAPI `main.py:61-95`, Django `views.py:39-70`):
opens a GDPR Art_15 span, records `userId` and `operation` inputs;
if the user is absent, ends the span with the error
"User not found" and answers 404; otherwise records `email` and
`recordsReturned` outputs, ends the span, and returns the user. -/
def getUser (st : EngineState) (db : List (String × UserRec))
    (uid : String) : Except EngineError (HttpResponse × EngineState) :=
  match beginSpan st "GDPR" "Art_15" none with
  | Except.error e => Except.error e
  | Except.ok (span, st) =>
    match span.setInput "userId" (AttrValue.str uid) with
    | Except.error e => Except.error e
    | Except.ok span =>
      match span.setInput "operation" (AttrValue.str "data_access") with
      | Except.error e => Except.error e
      | Except.ok span =>
        match lookupDb db uid with
        | none =>
          match endWithError st span
              { message := "User not found", kind := "Exception" } with
          | Except.error e => Except.error e
          | Except.ok (_, st) => Except.ok (HttpResponse.notFound, st)
        | some user =>
          match span.setOutput "email" (AttrValue.str user.email) with
          | Except.error e => Except.error e
          | Except.ok span =>
            match span.setOutput "recordsReturned" (AttrValue.nat 1) with
            | Except.error e => Except.error e
            | Except.ok span =>
              match endSpan st span with
              | Except.error e => Except.error e
              | Except.ok (_, st) =>
                Except.ok (HttpResponse.okUser user, st)

/-- `create_user` (FastAPI `main.py:121-162`, Django `views.py:94-143`):
opens a GDPR Art_51f span and a SOC2 CC6_1 span — both without an
explicit correlation key — records their inputs, stores the new user,
records their outputs, and ends both spans.  The generated uuid is a
parameter. -/
def createUser (st : EngineState) (db : List (String × UserRec))
    (uid email name : String) :
    Except EngineError (HttpResponse × List (String × UserRec) × EngineState) :=
  match beginSpan st "GDPR" "Art_51f" none with
  | Except.error e => Except.error e
  | Except.ok (gdprSpan, st) =>
    match beginSpan st "SOC2" "CC6_1" none with
    | Except.error e => Except.error e
    | Except.ok (soc2Span, st) =>
      let user : UserRec := { uid := uid, email := email, name := name }
      match gdprSpan.setInput "email" (AttrValue.str email) with
      | Except.error e => Except.error e
      | Except.ok gdprSpan =>
        match gdprSpan.setInput "operation" (AttrValue.str "create_user") with
        | Except.error e => Except.error e
        | Except.ok gdprSpan =>
          match soc2Span.setInput "userId" (AttrValue.str uid) with
          | Except.error e => Except.error e
          | Except.ok soc2Span =>
            match soc2Span.setInput "action" (AttrValue.str "create_user") with
            | Except.error e => Except.error e
            | Except.ok soc2Span =>
              match soc2Span.setInput "authorized" (AttrValue.bool true) with
              | Except.error e => Except.error e
              | Except.ok soc2Span =>
                let db := db ++ [(uid, user)]
                match gdprSpan.setOutput "userId" (AttrValue.str uid) with
                | Except.error e => Except.error e
                | Except.ok gdprSpan =>
                  match gdprSpan.setOutput "recordsCreated" (AttrValue.nat 1) with
                  | Except.error e => Except.error e
                  | Except.ok gdprSpan =>
                    match endSpan st gdprSpan with
                    | Except.error e => Except.error e
                    | Except.ok (_, st) =>
                      match soc2Span.setOutput "result" (AttrValue.str "success") with
                      | Except.error e => Except.error e
                      | Except.ok soc2Span =>
                        match endSpan st soc2Span with
                        | Except.error e => Except.error e
                        | Except.ok (_, st) =>
                          Except.ok (HttpResponse.created user, db, st)

/-- `delete_user` (FastAPI `main.py:165-193`, Django `views.py:146-175`):
opens a GDPR Art_17 span, records inputs, deletes the entry when
present (`deleted` is 1 when it was, 0 otherwise), records
`deletedRecords` and `tablesCleared` outputs, ends the span, answers
204 either way. -/
def deleteUser (st : EngineState) (db : List (String × UserRec))
    (uid : String) :
    Except EngineError (HttpResponse × List (String × UserRec) × EngineState) :=
  match beginSpan st "GDPR" "Art_17" none with
  | Except.error e => Except.error e
  | Except.ok (span, st) =>
    match span.setInput "userId" (AttrValue.str uid) with
    | Except.error e => Except.error e
    | Except.ok span =>
      match span.setInput "operation" (AttrValue.str "data_erasure") with
      | Except.error e => Except.error e
      | Except.ok span =>
        let deleted : Nat := if containsKey db uid then 1 else 0
        let db := if containsKey db uid then removeKey db uid else db
        match span.setOutput "deletedRecords" (AttrValue.nat deleted) with
        | Except.error e => Except.error e
        | Except.ok span =>
          match span.setOutput "tablesCleared" (AttrValue.nat 1) with
          | Except.error e => Except.error e
          | Except.ok span =>
            match endSpan st span with
            | Except.error e => Except.error e
            | Except.ok (_, st) =>
              Except.ok (HttpResponse.noContent, db, st)

/-- The body returned by the `/health` endpoints (FastAPI
`main.py:48-58`, Django `views.py:27-36`). -/
structure HealthBody where
  status : String
  version : String
  frameworks : List String
  controls : List String
deriving DecidableEq

/-- The constant JSON body both health handlers return. -/
def healthBody : HealthBody :=
  { status := "healthy", version := "1.0.0",
    frameworks := ["GDPR", "SOC2"],
    controls := ["Art.15", "Art.17", "Art.5(1)(f)", "CC6.1"] }

/-- `health` (both apps): returns the constant body and touches no
engine state. -/
def health (st : EngineState) : HealthBody × EngineState :=
  (healthBody, st)

/-! ## Decidable equality on engine results, and concrete demo runs -/

instance {ε α : Type} [DecidableEq ε] [DecidableEq α] :
    DecidableEq (Except ε α) :=
  fun x y =>
    match x, y with
    | Except.ok a, Except.ok b =>
      if h : a = b then Decidable.isTrue (by rw [h])
      else Decidable.isFalse (by intro hc; cases hc; exact h rfl)
    | Except.ok _, Except.error _ => Decidable.isFalse (by intro hc; cases hc)
    | Except.error _, Except.ok _ => Decidable.isFalse (by intro hc; cases hc)
    | Except.error a, Except.error b =>
      if h : a = b then Decidable.isTrue (by rw [h])
      else Decidable.isFalse (by intro hc; cases hc; exact h rfl)

/-- `true` exactly when an engine call succeeded. -/
def isOkE {α : Type} (x : Except EngineError α) : Bool :=
  match x with
  | Except.ok _ => true
  | Except.error _ => false

/-- The seed contents of `users_db` in both example apps. -/
def demoDb : List (String × UserRec) :=
  [("123", { uid := "123", email := "alice@example.com", name := "Alice" }),
   ("456", { uid := "456", email := "bob@example.com", name := "Bob" })]

/-- Placeholder span used only for the error branches of demo
extractors (never reached on the demo runs). -/
def fallbackSpan : Span :=
  { spanId := 0, control := gdprArt15, correlationKey := 0,
    inputs := [], outputs := [], status := SpanStatus.OPEN,
    error := none, startedAt := 0, endedAt := none }

/-- A concrete `beginSpan` run on the demo registry. -/
def demoBegin : Except EngineError (Span × EngineState) :=
  beginSpan demoState "GDPR" "Art_15" none

def demoSpan0 : Span :=
  match demoBegin with
  | Except.ok p => p.1
  | Except.error _ => fallbackSpan

def demoSt0 : EngineState :=
  match demoBegin with
  | Except.ok p => p.2
  | Except.error _ => demoState

/-- Ending the demo span. -/
def demoEnd : Except EngineError (Span × EngineState) :=
  endSpan demoSt0 demoSpan0

def demoSpan1 : Span :=
  match demoEnd with
  | Except.ok p => p.1
  | Except.error _ => fallbackSpan

def demoSt1 : EngineState :=
  match demoEnd with
  | Except.ok p => p.2
  | Except.error _ => demoState

/-! ## Claim theorems -/

/-- C1: `end()` and `endWithError()` are each callable exactly once per
Span.  After either terminal transition the returned state carries
exactly one new EvidenceRecord for the span, and a second call of
either operation on the ended span fails with `SpanAlreadyEnded`,
returning no new state — so export is not re-fired and no second
EvidenceRecord is produced. -/
theorem end_exactly_once (st st2 : EngineState) (s s2 : Span) (e1 e2 : ErrInfo)
    (h : endSpan st s = Except.ok (s2, st2) ∨
         endWithError st s e1 = Except.ok (s2, st2)) :
    st2.queue = st.queue ++ [snapshot s2] ∧
    endSpan st2 s2 = Except.error EngineError.SpanAlreadyEnded ∧
    endWithError st2 s2 e2 = Except.error EngineError.SpanAlreadyEnded := by
  by_cases hs : s.status = SpanStatus.OPEN
  · cases h with
    | inl h =>
      simp only [endSpan, hs, if_true, Except.ok.injEq, Prod.mk.injEq] at h
      obtain ⟨h1, h2⟩ := h
      subst h1
      subst h2
      refine ⟨rfl, ?_, ?_⟩ <;> simp [endSpan, endWithError]
    | inr h =>
      simp only [endWithError, hs, if_true, Except.ok.injEq, Prod.mk.injEq] at h
      obtain ⟨h1, h2⟩ := h
      subst h1
      subst h2
      refine ⟨rfl, ?_, ?_⟩ <;> simp [endSpan, endWithError]
  · cases h with
    | inl h => simp [endSpan, hs] at h
    | inr h => simp [endWithError, hs] at h

/-- C1 witness: ending the concrete demo span enqueues its record, and
re-ending it either way fails with `SpanAlreadyEnded`. -/
theorem end_exactly_once_witness :
    demoSt1.queue = demoSt0.queue ++ [snapshot demoSpan1] ∧
    endSpan demoSt1 demoSpan1 = Except.error EngineError.SpanAlreadyEnded ∧
    endWithError demoSt1 demoSpan1 { message := "x", kind := "y" } =
      Except.error EngineError.SpanAlreadyEnded :=
  end_exactly_once demoSt0 demoSt1 demoSpan0 demoSpan1
    { message := "x", kind := "y" } { message := "x", kind := "y" }
    (Or.inl (by rfl))

/-- C2: `setInput`/`setOutput` succeed (recording the entry) while the
span's status is OPEN, and fail with `SpanClosed` in either terminal
state (ENDED_OK or ENDED_ERROR). -/
theorem setInput_setOutput_open_only (s : Span) (k : String) (v : AttrValue) :
    (s.status = SpanStatus.OPEN →
       s.setInput k v = Except.ok { s with inputs := s.inputs ++ [(k, v)] } ∧
       s.setOutput k v = Except.ok { s with outputs := s.outputs ++ [(k, v)] }) ∧
    (s.status = SpanStatus.ENDED_OK ∨ s.status = SpanStatus.ENDED_ERROR →
       s.setInput k v = Except.error EngineError.SpanClosed ∧
       s.setOutput k v = Except.error EngineError.SpanClosed) := by
  constructor
  · intro h
    constructor <;> simp [Span.setInput, Span.setOutput, h]
  · intro h
    have hne : s.status ≠ SpanStatus.OPEN := by
      cases h with
      | inl h => rw [h]; intro hc; cases hc
      | inr h => rw [h]; intro hc; cases hc
    constructor <;> simp [Span.setInput, Span.setOutput, hne]

/-- C2 witness: attribute writes succeed on the OPEN demo span and fail
with `SpanClosed` on the ended demo span. -/
theorem setInput_setOutput_open_only_witness :
    (demoSpan0.setInput "userId" (AttrValue.str "123") =
       Except.ok { demoSpan0 with
         inputs := demoSpan0.inputs ++ [("userId", AttrValue.str "123")] } ∧
     demoSpan0.setOutput "userId" (AttrValue.str "123") =
       Except.ok { demoSpan0 with
         outputs := demoSpan0.outputs ++ [("userId", AttrValue.str "123")] }) ∧
    (demoSpan1.setInput "late" (AttrValue.str "x") =
       Except.error EngineError.SpanClosed ∧
     demoSpan1.setOutput "late" (AttrValue.str "x") =
       Except.error EngineError.SpanClosed) :=
  ⟨(setInput_setOutput_open_only demoSpan0 "userId" (AttrValue.str "123")).1
     (by rfl),
   (setInput_setOutput_open_only demoSpan1 "late" (AttrValue.str "x")).2
     (Or.inl (by rfl))⟩

/-- C3: for every `(framework, controlId)` pair that the registry
resolves, `beginSpan` succeeds and returns a span in state OPEN with
that control attached and empty inputs/outputs; for every pair the
registry does not know, it fails with `UnknownControl`. -/
theorem beginSpan_registry (st : EngineState) (fw cid : String)
    (ck : Option Nat) (c : ControlDescriptor) (s : Span) (st2 : EngineState) :
    (lookupControl st.registry fw cid = Except.ok c →
       isOkE (beginSpan st fw cid ck) = true) ∧
    (lookupControl st.registry fw cid = Except.ok c →
       beginSpan st fw cid ck = Except.ok (s, st2) →
       s.status = SpanStatus.OPEN ∧ s.control = c ∧
       s.inputs = [] ∧ s.outputs = []) ∧
    (lookupControl st.registry fw cid = Except.error EngineError.UnknownControl →
       beginSpan st fw cid ck = Except.error EngineError.UnknownControl) := by
  refine ⟨?_, ?_, ?_⟩
  · intro hl
    simp [beginSpan, hl, isOkE]
  · intro hl hb
    simp only [beginSpan, hl, Except.ok.injEq, Prod.mk.injEq] at hb
    obtain ⟨h1, _⟩ := hb
    subst h1
    exact ⟨rfl, rfl, rfl, rfl⟩
  · intro hl
    simp [beginSpan, hl]

/-- C3 witness: the registered pair ("GDPR", "Art_15") yields an OPEN
span carrying that control with empty attributes; the unregistered pair
("GDPR", "Nope") fails with `UnknownControl`. -/
theorem beginSpan_registry_witness :
    isOkE (beginSpan demoState "GDPR" "Art_15" none) = true ∧
    (demoSpan0.status = SpanStatus.OPEN ∧ demoSpan0.control = gdprArt15 ∧
     demoSpan0.inputs = [] ∧ demoSpan0.outputs = []) ∧
    beginSpan demoState "GDPR" "Nope" none =
      Except.error EngineError.UnknownControl :=
  ⟨(beginSpan_registry demoState "GDPR" "Art_15" none gdprArt15
      demoSpan0 demoSt0).1 (by rfl),
   (beginSpan_registry demoState "GDPR" "Art_15" none gdprArt15
      demoSpan0 demoSt0).2.1 (by rfl) (by rfl),
   (beginSpan_registry demoState "GDPR" "Nope" none gdprArt15
      fallbackSpan demoState).2.2 (by rfl)⟩

/-! ## Attribute-write traces, for the round-trip claim -/

/-- One attempted attribute write, as issued by a caller. -/
inductive AttrOp where
  | input (k : String) (v : AttrValue)
  | output (k : String) (v : AttrValue)
deriving DecidableEq

/-- Performing one attempted write on a span: on `SpanClosed` failure
the span is left untouched. -/
def applyOp (s : Span) (op : AttrOp) : Span :=
  match op with
  | AttrOp.input k v =>
    match s.setInput k v with
    | Except.ok s2 => s2
    | Except.error _ => s
  | AttrOp.output k v =>
    match s.setOutput k v with
    | Except.ok s2 => s2
    | Except.error _ => s

/-- Performing a sequence of attempted writes. -/
def applyOps (s : Span) (ops : List AttrOp) : Span :=
  ops.foldl applyOp s

/-- The input entries a trace of writes records. -/
def inputsOf (ops : List AttrOp) : List (String × AttrValue) :=
  match ops with
  | [] => []
  | AttrOp.input k v :: rest => (k, v) :: inputsOf rest
  | AttrOp.output _ _ :: rest => inputsOf rest

/-- The output entries a trace of writes records. -/
def outputsOf (ops : List AttrOp) : List (String × AttrValue) :=
  match ops with
  | [] => []
  | AttrOp.input _ _ :: rest => outputsOf rest
  | AttrOp.output k v :: rest => (k, v) :: outputsOf rest

/-- On an OPEN span every write succeeds: a trace leaves the span OPEN
and appends exactly its entries to the attribute maps. -/
theorem applyOps_open (ops : List AttrOp) (s : Span)
    (h : s.status = SpanStatus.OPEN) :
    (applyOps s ops).status = SpanStatus.OPEN ∧
    (applyOps s ops).inputs = s.inputs ++ inputsOf ops ∧
    (applyOps s ops).outputs = s.outputs ++ outputsOf ops := by
  induction ops generalizing s with
  | nil => simp [applyOps, inputsOf, outputsOf, h]
  | cons op rest ih =>
    cases op with
    | input k v =>
      have hstep : applyOp s (AttrOp.input k v) =
          { s with inputs := s.inputs ++ [(k, v)] } := by
        simp [applyOp, Span.setInput, h]
      have := ih { s with inputs := s.inputs ++ [(k, v)] } (by simpa using h)
      simp only [applyOps, List.foldl_cons, hstep] at *
      refine ⟨this.1, ?_, ?_⟩
      · rw [this.2.1]; simp [inputsOf]
      · rw [this.2.2]; simp [outputsOf]
    | output k v =>
      have hstep : applyOp s (AttrOp.output k v) =
          { s with outputs := s.outputs ++ [(k, v)] } := by
        simp [applyOp, Span.setOutput, h]
      have := ih { s with outputs := s.outputs ++ [(k, v)] } (by simpa using h)
      simp only [applyOps, List.foldl_cons, hstep] at *
      refine ⟨this.1, ?_, ?_⟩
      · rw [this.2.1]; simp [inputsOf]
      · rw [this.2.2]; simp [outputsOf]

/-- On a closed span every write fails and changes nothing. -/
theorem applyOps_closed (ops : List AttrOp) (s : Span)
    (h : s.status ≠ SpanStatus.OPEN) :
    applyOps s ops = s := by
  induction ops with
  | nil => rfl
  | cons op rest ih =>
    have hstep : applyOp s op = s := by
      cases op with
      | input k v => simp [applyOp, Span.setInput, h]
      | output k v => simp [applyOp, Span.setOutput, h]
    simp only [applyOps, List.foldl_cons, hstep]
    exact ih

/-- C4: round-trip of attributes into the wire record.  Every entry a
trace of writes sets while the span is OPEN appears unchanged in the
EvidenceRecord enqueued at the terminal transition (either kind), and
any write attempted after the terminal transition fails, leaving the
ended span — and hence the already-enqueued record — untouched. -/
theorem evidence_roundtrip (st st2 : EngineState) (s s2 : Span)
    (ops post : List AttrOp) (err : ErrInfo)
    (hopen : s.status = SpanStatus.OPEN)
    (hend : endSpan st (applyOps s ops) = Except.ok (s2, st2) ∨
            endWithError st (applyOps s ops) err = Except.ok (s2, st2)) :
    st2.queue = st.queue ++ [snapshot s2] ∧
    (snapshot s2).inputs = s.inputs ++ inputsOf ops ∧
    (snapshot s2).outputs = s.outputs ++ outputsOf ops ∧
    applyOps s2 post = s2 := by
  obtain ⟨ho, hi, hu⟩ := applyOps_open ops s hopen
  cases hend with
  | inl h =>
    simp only [endSpan, ho, if_true, Except.ok.injEq, Prod.mk.injEq] at h
    obtain ⟨h1, h2⟩ := h
    subst h1
    subst h2
    refine ⟨rfl, ?_, ?_, ?_⟩
    · simpa [snapshot] using hi
    · simpa [snapshot] using hu
    · exact applyOps_closed post _ (by intro hc; cases hc)
  | inr h =>
    simp only [endWithError, ho, if_true, Except.ok.injEq, Prod.mk.injEq] at h
    obtain ⟨h1, h2⟩ := h
    subst h1
    subst h2
    refine ⟨rfl, ?_, ?_, ?_⟩
    · simpa [snapshot] using hi
    · simpa [snapshot] using hu
    · exact applyOps_closed post _ (by intro hc; cases hc)

/-- The demo trace for the round-trip witness. -/
def demoOps : List AttrOp :=
  [AttrOp.input "userId" (AttrValue.str "123"),
   AttrOp.output "recordsReturned" (AttrValue.nat 1)]

/-- A write attempted after the terminal transition. -/
def demoPost : List AttrOp := [AttrOp.input "late" (AttrValue.str "x")]

def demoEnd2 : Except EngineError (Span × EngineState) :=
  endSpan demoSt0 (applyOps demoSpan0 demoOps)

def demoSpan2 : Span :=
  match demoEnd2 with
  | Except.ok p => p.1
  | Except.error _ => fallbackSpan

def demoSt2 : EngineState :=
  match demoEnd2 with
  | Except.ok p => p.2
  | Except.error _ => demoState

/-- C4 witness: a concrete trace on the demo span round-trips into the
enqueued record, and the late write attempt changes nothing. -/
theorem evidence_roundtrip_witness :
    demoSt2.queue = demoSt0.queue ++ [snapshot demoSpan2] ∧
    (snapshot demoSpan2).inputs = demoSpan0.inputs ++ inputsOf demoOps ∧
    (snapshot demoSpan2).outputs = demoSpan0.outputs ++ outputsOf demoOps ∧
    applyOps demoSpan2 demoPost = demoSpan2 :=
  evidence_roundtrip demoSt0 demoSt2 demoSpan0 demoSpan2 demoOps demoPost
    { message := "x", kind := "y" } (by rfl) (Or.inl (by rfl))

/-- C6: on any terminal transition (either kind) the span is handed to
the Exporter's enqueue path before the call returns — the state the
caller receives back already holds the span's EvidenceRecord at the
end of the queue. -/
theorem terminal_transition_enqueues (st : EngineState) (s : Span)
    (err : ErrInfo) :
    (∀ s2 st2, endSpan st s = Except.ok (s2, st2) →
       st2.queue = st.queue ++ [snapshot s2]) ∧
    (∀ s2 st2, endWithError st s err = Except.ok (s2, st2) →
       st2.queue = st.queue ++ [snapshot s2]) := by
  constructor <;> intro s2 st2 h <;> by_cases hs : s.status = SpanStatus.OPEN
  · simp only [endSpan, hs, if_true, Except.ok.injEq, Prod.mk.injEq] at h
    obtain ⟨h1, h2⟩ := h
    subst h1
    subst h2
    rfl
  · simp [endSpan, hs] at h
  · simp only [endWithError, hs, if_true, Except.ok.injEq, Prod.mk.injEq] at h
    obtain ⟨h1, h2⟩ := h
    subst h1
    subst h2
    rfl
  · simp [endWithError, hs] at h

/-- C6 witness: ending the concrete demo span returns a state whose
queue already carries the new record. -/
theorem terminal_transition_enqueues_witness :
    demoSt1.queue = demoSt0.queue ++ [snapshot demoSpan1] :=
  (terminal_transition_enqueues demoSt0 demoSpan0
    { message := "x", kind := "y" }).1 demoSpan1 demoSt1 (by rfl)

/-! ## Correlation-context lemmas -/

/-- A span joining a context is a member afterwards. -/
theorem mem_membersOf_joinContext_self (ctxs : List (Nat × List Nat))
    (k sid : Nat) : sid ∈ membersOf (joinContext ctxs k sid) k := by
  induction ctxs with
  | nil => simp [joinContext, membersOf]
  | cons c rest ih =>
    by_cases hc : c.1 = k
    · simp [joinContext, membersOf, hc]
    · simp [joinContext, membersOf, hc]
      exact ih

/-- Joining a context preserves its existing members. -/
theorem mem_membersOf_joinContext_mono (ctxs : List (Nat × List Nat))
    (k sid x : Nat) (h : x ∈ membersOf ctxs k) :
    x ∈ membersOf (joinContext ctxs k sid) k := by
  induction ctxs with
  | nil => simp [membersOf] at h
  | cons c rest ih =>
    by_cases hc : c.1 = k
    · simp [membersOf, hc] at h
      simp [joinContext, membersOf, hc]
      exact Or.inl h
    · simp [membersOf, hc] at h
      simp [joinContext, membersOf, hc]
      exact ih h

/-- What the example `create_user` handler actually produces from the
pristine demo state: the framework and correlation key of each record
it enqueues, in order. -/
def demoCreateFrameworkKeys : List (String × Nat) :=
  match createUser demoState [] "u1" "ann@example.com" "Ann" with
  | Except.ok (_, _, st) =>
    st.queue.map (fun (r : EvidenceRecord) => (r.framework, r.correlationKey))
  | Except.error _ => []

/-- C5 counterexample: the claim asserts that in the multi-framework
`create_user` operation the GDPR Art_51f record and the SOC2 CC6_1
record share one correlationKey.  In the source, both
`GDPR.begin_span(GDPR.Art_51f)` and `SOC2.begin_span(SOC2.CC6_1)` are
called without a correlation key (FastAPI `main.py:129-130`, Django
`views.py:102-103`), so each span mints a fresh key: on the concrete
demo run the GDPR record carries key 1 and the SOC2 record key 3. -/
theorem createUser_keys_distinct :
    demoCreateFrameworkKeys = [("GDPR", 1), ("SOC2", 3)] ∧ (1 : Nat) ≠ 3 := by
  constructor
  · rfl
  · intro h
    cases h

/-- C5 (amended): two spans opened with the same explicit
correlationKey are members of the same CorrelationContext regardless of
which factory (framework) created them; the example `create_user`
operation, however, passes no correlationKey to either `begin_span`, so
its two EvidenceRecords carry distinct correlation keys (1 and 3 on the
demo run). -/
theorem sameKey_joins_context (st st1 st2 : EngineState)
    (fw1 c1 fw2 c2 : String) (k : Nat) (s1 s2 : Span)
    (h1 : beginSpan st fw1 c1 (some k) = Except.ok (s1, st1))
    (h2 : beginSpan st1 fw2 c2 (some k) = Except.ok (s2, st2)) :
    s1.correlationKey = k ∧ s2.correlationKey = k ∧
    s1.spanId ∈ members st2 k ∧ s2.spanId ∈ members st2 k ∧
    demoCreateFrameworkKeys = [("GDPR", 1), ("SOC2", 3)] := by
  cases hl1 : lookupControl st.registry fw1 c1 with
  | error e =>
    simp [beginSpan, hl1] at h1
  | ok cd1 =>
    simp only [beginSpan, hl1, Except.ok.injEq, Prod.mk.injEq] at h1
    obtain ⟨hs1, hst1⟩ := h1
    cases hl2 : lookupControl st1.registry fw2 c2 with
    | error e =>
      simp [beginSpan, hl2] at h2
    | ok cd2 =>
      simp only [beginSpan, hl2, Except.ok.injEq, Prod.mk.injEq] at h2
      obtain ⟨hs2, hst2⟩ := h2
      subst hs1
      subst hst1
      subst hs2
      subst hst2
      refine ⟨rfl, rfl, ?_, ?_, rfl⟩
      · show st.nextId ∈ membersOf
          (joinContext (joinContext st.contexts k st.nextId) k (st.nextId + 2)) k
        exact mem_membersOf_joinContext_mono _ k _ _
          (mem_membersOf_joinContext_self st.contexts k st.nextId)
      · show st.nextId + 2 ∈ membersOf
          (joinContext (joinContext st.contexts k st.nextId) k (st.nextId + 2)) k
        exact mem_membersOf_joinContext_self _ k _

/-- The first demo span opened with the explicit key 42. -/
def demoPairA : Except EngineError (Span × EngineState) :=
  beginSpan demoState "GDPR" "Art_51f" (some 42)

def demoSpanA : Span :=
  match demoPairA with
  | Except.ok p => p.1
  | Except.error _ => fallbackSpan

def demoStA : EngineState :=
  match demoPairA with
  | Except.ok p => p.2
  | Except.error _ => demoState

/-- The second demo span, from the other factory, with the same key. -/
def demoPairB : Except EngineError (Span × EngineState) :=
  beginSpan demoStA "SOC2" "CC6_1" (some 42)

def demoSpanB : Span :=
  match demoPairB with
  | Except.ok p => p.1
  | Except.error _ => fallbackSpan

def demoStB : EngineState :=
  match demoPairB with
  | Except.ok p => p.2
  | Except.error _ => demoState

/-- C5 witness: a GDPR span and a SOC2 span opened with the same
explicit key 42 are both members of the key-42 context. -/
theorem sameKey_joins_context_witness :
    demoSpanA.correlationKey = 42 ∧ demoSpanB.correlationKey = 42 ∧
    demoSpanA.spanId ∈ members demoStB 42 ∧
    demoSpanB.spanId ∈ members demoStB 42 ∧
    demoCreateFrameworkKeys = [("GDPR", 1), ("SOC2", 3)] :=
  sameKey_joins_context demoState demoStA demoStB "GDPR" "Art_51f"
    "SOC2" "CC6_1" 42 demoSpanA demoSpanB (by rfl) (by rfl)

/-! ## Handler theorems -/

/-- C7: the not-found path.  When Art_15 is registered and the user id
is absent, `get_user` answers 404 and enqueues exactly one
EvidenceRecord, with status ENDED_ERROR and the caller-supplied error
message "User not found" (kind "Exception") recorded verbatim; in
general `endWithError` stores the caller's `{message, kind}` unchanged
in the ended span and its snapshot. -/
theorem getUser_notFound_evidence (st : EngineState)
    (db : List (String × UserRec)) (uid : String) (c : ControlDescriptor)
    (hreg : lookupControl st.registry "GDPR" "Art_15" = Except.ok c)
    (habs : lookupDb db uid = none) :
    getUser st db uid = Except.ok (HttpResponse.notFound,
      { st with
          contexts := joinContext st.contexts (st.nextId + 1) st.nextId,
          queue := st.queue ++
            [{ spanId := st.nextId, framework := c.framework,
               controlId := c.id, correlationKey := st.nextId + 1,
               status := SpanStatus.ENDED_ERROR, startedAt := st.clock,
               endedAt := st.clock + 1,
               inputs := [("userId", AttrValue.str uid),
                          ("operation", AttrValue.str "data_access")],
               outputs := [],
               error := some { message := "User not found",
                               kind := "Exception" } }],
          nextId := st.nextId + 2,
          clock := st.clock + 2 }) ∧
    (∀ st0 s0 e0 s1 st1, endWithError st0 s0 e0 = Except.ok (s1, st1) →
       s1.error = some e0 ∧ (snapshot s1).error = some e0) := by
  constructor
  · simp [getUser, beginSpan, hreg, habs, Span.setInput, endWithError, snapshot]
  · intro st0 s0 e0 s1 st1 h
    by_cases hs : s0.status = SpanStatus.OPEN
    · simp only [endWithError, hs, if_true, Except.ok.injEq, Prod.mk.injEq] at h
      obtain ⟨h1, _⟩ := h
      subst h1
      exact ⟨rfl, rfl⟩
    · simp [endWithError, hs] at h

/-- C7 witness: `get_user` on the seeded demo store with the unknown id
"999" produces the 404 response and exactly the ENDED_ERROR record with
message "User not found". -/
theorem getUser_notFound_evidence_witness :
    getUser demoState demoDb "999" = Except.ok (HttpResponse.notFound,
      { registry := demoRegistry, contexts := [(1, [0])],
        queue := [{ spanId := 0, framework := "GDPR", controlId := "Art_15",
                    correlationKey := 1, status := SpanStatus.ENDED_ERROR,
                    startedAt := 0, endedAt := 1,
                    inputs := [("userId", AttrValue.str "999"),
                               ("operation", AttrValue.str "data_access")],
                    outputs := [],
                    error := some { message := "User not found",
                                    kind := "Exception" } }],
        nextId := 2, clock := 2 }) :=
  (getUser_notFound_evidence demoState demoDb "999" gdprArt15
    (by rfl) (by rfl)).1

/-- C9: span discipline of `get_user`.  Whenever Art_15 resolves in the
registry, the handler succeeds on every input and every store state,
reaching a terminal transition exactly once on each exit path: exactly
one EvidenceRecord is appended to the queue — ENDED_ERROR (with the 404
response) when the id is absent, ENDED_OK carrying the `email` and
`recordsReturned` outputs (with the user response) when present.  No
path leaves the span OPEN or ends it twice. -/
theorem getUser_span_discipline (st : EngineState)
    (db : List (String × UserRec)) (uid : String) (c : ControlDescriptor)
    (hreg : lookupControl st.registry "GDPR" "Art_15" = Except.ok c) :
    (lookupDb db uid = none →
       getUser st db uid = Except.ok (HttpResponse.notFound,
         { st with
             contexts := joinContext st.contexts (st.nextId + 1) st.nextId,
             queue := st.queue ++
               [{ spanId := st.nextId, framework := c.framework,
                  controlId := c.id, correlationKey := st.nextId + 1,
                  status := SpanStatus.ENDED_ERROR, startedAt := st.clock,
                  endedAt := st.clock + 1,
                  inputs := [("userId", AttrValue.str uid),
                             ("operation", AttrValue.str "data_access")],
                  outputs := [],
                  error := some { message := "User not found",
                                  kind := "Exception" } }],
             nextId := st.nextId + 2, clock := st.clock + 2 })) ∧
    (∀ u, lookupDb db uid = some u →
       getUser st db uid = Except.ok (HttpResponse.okUser u,
         { st with
             contexts := joinContext st.contexts (st.nextId + 1) st.nextId,
             queue := st.queue ++
               [{ spanId := st.nextId, framework := c.framework,
                  controlId := c.id, correlationKey := st.nextId + 1,
                  status := SpanStatus.ENDED_OK, startedAt := st.clock,
                  endedAt := st.clock + 1,
                  inputs := [("userId", AttrValue.str uid),
                             ("operation", AttrValue.str "data_access")],
                  outputs := [("email", AttrValue.str u.email),
                              ("recordsReturned", AttrValue.nat 1)],
                  error := none }],
             nextId := st.nextId + 2, clock := st.clock + 2 })) := by
  constructor
  · intro habs
    simp [getUser, beginSpan, hreg, habs, Span.setInput, endWithError, snapshot]
  · intro u hsome
    simp [getUser, beginSpan, hreg, hsome, Span.setInput, Span.setOutput,
          endSpan, snapshot]

/-- C9 witness: on the seeded demo store the absent id "999" takes the
404 path with its ENDED_ERROR record, and the present id "123" takes
the success path with its ENDED_OK record carrying Alice's email. -/
theorem getUser_span_discipline_witness :
    getUser demoState demoDb "999" = Except.ok (HttpResponse.notFound,
      { registry := demoRegistry, contexts := [(1, [0])],
        queue := [{ spanId := 0, framework := "GDPR", controlId := "Art_15",
                    correlationKey := 1, status := SpanStatus.ENDED_ERROR,
                    startedAt := 0, endedAt := 1,
                    inputs := [("userId", AttrValue.str "999"),
                               ("operation", AttrValue.str "data_access")],
                    outputs := [],
                    error := some { message := "User not found",
                                    kind := "Exception" } }],
        nextId := 2, clock := 2 }) ∧
    getUser demoState demoDb "123" = Except.ok
      (HttpResponse.okUser { uid := "123", email := "alice@example.com",
                             name := "Alice" },
      { registry := demoRegistry, contexts := [(1, [0])],
        queue := [{ spanId := 0, framework := "GDPR", controlId := "Art_15",
                    correlationKey := 1, status := SpanStatus.ENDED_OK,
                    startedAt := 0, endedAt := 1,
                    inputs := [("userId", AttrValue.str "123"),
                               ("operation", AttrValue.str "data_access")],
                    outputs := [("email", AttrValue.str "alice@example.com"),
                                ("recordsReturned", AttrValue.nat 1)],
                    error := none }],
        nextId := 2, clock := 2 }) :=
  ⟨(getUser_span_discipline demoState demoDb "999" gdprArt15 (by rfl)).1
     (by rfl),
   (getUser_span_discipline demoState demoDb "123" gdprArt15 (by rfl)).2
     { uid := "123", email := "alice@example.com", name := "Alice" }
     (by rfl)⟩

/-! ## Store lemmas for the deletion claim -/

/-- After `del users_db[u]` the key `u` resolves to nothing. -/
theorem lookupDb_removeKey_self (db : List (String × UserRec)) (u : String) :
    lookupDb (removeKey db u) u = none := by
  induction db with
  | nil => rfl
  | cons p rest ih =>
    by_cases hp : p.1 = u
    · simp [removeKey, hp]
      exact ih
    · simp [removeKey, lookupDb, hp]
      exact ih

/-- `del users_db[u]` leaves every other key's binding unchanged. -/
theorem lookupDb_removeKey_other (db : List (String × UserRec))
    (u k : String) (h : k ≠ u) :
    lookupDb (removeKey db u) k = lookupDb db k := by
  induction db with
  | nil => rfl
  | cons p rest ih =>
    by_cases hp : p.1 = u
    · have hpk : ¬ p.1 = k := by
        rw [hp]; exact fun hc => h hc.symm
      rw [show removeKey (p :: rest) u = removeKey rest u from by
            simp [removeKey, hp],
          show lookupDb (p :: rest) k = lookupDb rest k from by
            simp [lookupDb, hpk]]
      exact ih
    · by_cases hk : p.1 = k
      · simp [removeKey, lookupDb, hp, hk, h]
      · simp [removeKey, lookupDb, hp, hk]
        exact ih

/-- `u not in users_db` means lookup finds nothing. -/
theorem lookupDb_of_not_containsKey (db : List (String × UserRec))
    (u : String) (h : containsKey db u = false) : lookupDb db u = none := by
  unfold containsKey at h
  cases hl : lookupDb db u with
  | none => rfl
  | some v => rw [hl] at h; cases h

/-- C10: frame property of `delete_user`.  Whenever Art_17 resolves,
the handler succeeds on every input and store state: the resulting
store no longer binds `user_id` while every other key's binding is
unchanged, and the single enqueued ENDED_OK record carries the
`deletedRecords` output 1 when the id was present and 0 when it was
not — the same evidence shape either way. -/
theorem deleteUser_frame (st : EngineState) (db : List (String × UserRec))
    (uid : String) (c : ControlDescriptor)
    (hreg : lookupControl st.registry "GDPR" "Art_17" = Except.ok c) :
    deleteUser st db uid = Except.ok (HttpResponse.noContent,
      (if containsKey db uid then removeKey db uid else db),
      { st with
          contexts := joinContext st.contexts (st.nextId + 1) st.nextId,
          queue := st.queue ++
            [{ spanId := st.nextId, framework := c.framework,
               controlId := c.id, correlationKey := st.nextId + 1,
               status := SpanStatus.ENDED_OK, startedAt := st.clock,
               endedAt := st.clock + 1,
               inputs := [("userId", AttrValue.str uid),
                          ("operation", AttrValue.str "data_erasure")],
               outputs := [("deletedRecords",
                              AttrValue.nat (if containsKey db uid then 1 else 0)),
                           ("tablesCleared", AttrValue.nat 1)],
               error := none }],
          nextId := st.nextId + 2, clock := st.clock + 2 }) ∧
    lookupDb (if containsKey db uid then removeKey db uid else db) uid = none ∧
    (∀ k2, k2 ≠ uid →
       lookupDb (if containsKey db uid then removeKey db uid else db) k2 =
         lookupDb db k2) := by
  refine ⟨?_, ?_, ?_⟩
  · by_cases hc : containsKey db uid <;>
      simp [deleteUser, beginSpan, hreg, Span.setInput, Span.setOutput,
            endSpan, snapshot, hc]
  · by_cases hc : containsKey db uid
    · simp [hc, lookupDb_removeKey_self]
    · simp only [Bool.not_eq_true] at hc
      simp [hc]
      exact lookupDb_of_not_containsKey db uid hc
  · intro k2 hk
    by_cases hc : containsKey db uid
    · simp [hc, lookupDb_removeKey_other db uid k2 hk]
    · simp [hc]

/-- C10 witness: deleting the present id "123" from the seeded store
removes exactly that entry (Bob's entry survives, Alice's is gone) and
records `deletedRecords` 1. -/
theorem deleteUser_frame_witness :
    deleteUser demoState demoDb "123" = Except.ok (HttpResponse.noContent,
      [("456", { uid := "456", email := "bob@example.com", name := "Bob" })],
      { registry := demoRegistry, contexts := [(1, [0])],
        queue := [{ spanId := 0, framework := "GDPR", controlId := "Art_17",
                    correlationKey := 1, status := SpanStatus.ENDED_OK,
                    startedAt := 0, endedAt := 1,
                    inputs := [("userId", AttrValue.str "123"),
                               ("operation", AttrValue.str "data_erasure")],
                    outputs := [("deletedRecords", AttrValue.nat 1),
                                ("tablesCleared", AttrValue.nat 1)],
                    error := none }],
        nextId := 2, clock := 2 }) ∧
    lookupDb (if containsKey demoDb "123" then removeKey demoDb "123"
              else demoDb) "123" = none ∧
    lookupDb (if containsKey demoDb "123" then removeKey demoDb "123"
              else demoDb) "456" = lookupDb demoDb "456" :=
  ⟨(deleteUser_frame demoState demoDb "123" gdprArt17 (by rfl)).1,
   (deleteUser_frame demoState demoDb "123" gdprArt17 (by rfl)).2.1,
   (deleteUser_frame demoState demoDb "123" gdprArt17 (by rfl)).2.2 "456"
     (by decide)⟩

/-! ## Health endpoint -/

/-- A demo engine state whose exporter queue holds one record. -/
def stateWithOneRecord : EngineState :=
  { demoState with queue := [snapshot demoSpan1] }

/-- C8 counterexample: the claim says the health response reports the
current exporter queue depth, but both example handlers return a fixed
body (status, version, frameworks, controls) with no queue-depth field:
two engine states whose queues have different depths (0 and 1) receive
the identical response, so the response cannot report the depth. -/
theorem health_ignores_queue_depth :
    (health demoState).1 = (health stateWithOneRecord).1 ∧
    demoState.queue.length ≠ stateWithOneRecord.queue.length := by
  constructor
  · rfl
  · intro h
    cases h

/-- C8 (amended): the health endpoint is read-only — it returns the
engine state unchanged and a constant body — and that body reports the
set of frameworks and controls; it does not report the exporter queue
depth (the response is independent of the engine state). -/
theorem health_read_only (st : EngineState) :
    health st = (healthBody, st) ∧
    healthBody.frameworks = ["GDPR", "SOC2"] ∧
    healthBody.controls = ["Art.15", "Art.17", "Art.5(1)(f)", "CC6.1"] :=
  ⟨rfl, rfl, rfl⟩
